import Mathlib

/-!
Shallow embedding of the typed property system of `src/App/PropertyStandard.cpp`
(FreeCAD).  C++ `long` is modelled as `ℤ`, C++ `double` as `ℚ` (every operation
performed on doubles here is assignment or order comparison, which agree with
the rational order on representable values), `std::string` as `String`.
Python objects arriving at `setPyObject` are modelled as small closed sums that
reflect the `Py*_Check` chains actually present in the source; each carries the
information the source reads from it (`tp_name` for the error message of the
reject branch).  Fallible member functions return `Except String`, carrying the
exact message built by the source.
-/

namespace FreeCADProps

/-- Result of the Python-argument type dispatch performed by
`PropertyInteger::setPyObject` and `PropertyIntegerConstraint::setPyObject`:
an int (`PyLong_Check`), a float (`PyFloat_Check`, which those setters do not
accept), a parsed `(value, min, max, step)` dict/tuple (the
`Wrapped_ParseTupleAndKeywords` / `PyArg_ParseTuple` "llll" result), or any
other object, carrying its `tp_name`. -/
inductive IntPyInput where
  | int (n : ℤ)
  | float (x : ℚ)
  | dictOrTuple (value min max step : ℤ)
  | other (tpName : String)
deriving DecidableEq

/-- The `tp_name` of the dynamic value, used to build type-error messages. -/
def IntPyInput.tpName : IntPyInput → String
  | .int _ => "int"
  | .float _ => "float"
  | .dictOrTuple _ _ _ _ => "dict"
  | .other s => s

/-- Dynamic input to `PropertyFloat::setPyObject` and
`PropertyFloatConstraint::setPyObject`: a float, an int, a parsed
`(value, min, max, step)` dict/tuple (formats "d|ddd" / "dddd"), or any other
object carrying its `tp_name`. -/
inductive FloatPyInput where
  | float (x : ℚ)
  | int (n : ℤ)
  | dictOrTuple (value min max step : ℚ)
  | other (tpName : String)
deriving DecidableEq

/-- The `tp_name` of the dynamic value, used to build type-error messages. -/
def FloatPyInput.tpName : FloatPyInput → String
  | .float _ => "float"
  | .int _ => "int"
  | .dictOrTuple _ _ _ _ => "dict"
  | .other s => s

/-- Model of `App::PropertyInteger`: holds `long _lValue`. -/
structure PropertyInteger where
  lValue : ℤ
deriving DecidableEq

/-- Model of `PropertyInteger::setPyObject` (PropertyStandard.cpp:102-114): accepts only
`PyLong`; everything else throws `Base::TypeError("type must be int, not " +
tp_name)`. -/
def PropertyInteger.setPyObject (p : PropertyInteger) (v : IntPyInput) :
    Except String PropertyInteger :=
  match v with
  | .int n => .ok { p with lValue := n }
  | v => .error ("type must be int, not " ++ v.tpName)

/-- Model of `boost::math::round`: round to nearest integer, halves away from zero. -/
def boostRound (x : ℚ) : ℤ :=
  if 0 ≤ x then ⌊x + 1 / 2⌋ else ⌈x - 1 / 2⌉

/-- The `boost::any` values dispatched on by `PropertyInteger::setPathValue`
(the `typeid` chain at PropertyStandard.cpp:143-165): `long`/`int` are set
directly, `double`/`float`/`Quantity` are passed through `boost::math::round`,
anything else throws `std::bad_cast`. -/
inductive AnyValue where
  | aLong (n : ℤ)
  | aInt (n : ℤ)
  | aDouble (x : ℚ)
  | aFloat (x : ℚ)
  | aQuantity (x : ℚ)
  | aOther
deriving DecidableEq

/-- Model of `PropertyInteger::setPathValue` (PropertyStandard.cpp:143-165); `verifyPath`
is external and assumed to have succeeded. -/
def PropertyInteger.setPathValue (p : PropertyInteger) (v : AnyValue) :
    Except String PropertyInteger :=
  match v with
  | .aLong n => .ok { p with lValue := n }
  | .aInt n => .ok { p with lValue := n }
  | .aDouble x => .ok { p with lValue := boostRound x }
  | .aFloat x => .ok { p with lValue := boostRound x }
  | .aQuantity x => .ok { p with lValue := boostRound x }
  | .aOther => .error "std::bad_cast"

/-- Model of `App::PropertyFloat`: holds `double _dValue`. -/
structure PropertyFloat where
  dValue : ℚ
deriving DecidableEq

/-- Model of `PropertyFloat::setPyObject` (PropertyStandard.cpp:1040-1057): accepts
`PyFloat` and `PyLong` (the int is widened to double); everything else throws
`Base::TypeError("type must be float or int, not " + tp_name)`. -/
def PropertyFloat.setPyObject (p : PropertyFloat) (v : FloatPyInput) :
    Except String PropertyFloat :=
  match v with
  | .float x => .ok { p with dValue := x }
  | .int n => .ok { p with dValue := (n : ℚ) }
  | v => .error ("type must be float or int, not " ++ v.tpName)

/-- Model of `App::PropertyIntegerConstraint::Constraints`: `{LowerBound, UpperBound,
StepSize}` plus the manual ownership flag set by `setDeletable`. -/
structure IntConstraints where
  lowerBound : ℤ
  upperBound : ℤ
  stepSize : ℤ
  deletable : Bool
deriving DecidableEq

/-- Model of `App::PropertyIntegerConstraint`: a `PropertyInteger` with an optional
constraint descriptor (`_ConstStruct`, null when absent). -/
structure PropertyIntegerConstraint where
  lValue : ℤ
  constStruct : Option IntConstraints
deriving DecidableEq

/-- The clamp chain used verbatim by both constrained setters:
`if (temp > ub) temp = ub; else if (temp < lb) temp = lb;`. -/
def clampCode {α : Type} [LinearOrder α] (lb ub x : α) : α :=
  if x > ub then ub else if x < lb then lb else x

/-- Model of `PropertyIntegerConstraint::setPyObject` (PropertyStandard.cpp:697-772).
`PyLong`: clamp into the descriptor bounds when one is installed, else store
unchanged.  Dict/tuple: parse `(value, min, max, step)`, install a new owned
descriptor with `StepSize = max(1, step)` and store the clamped value.
Anything else (in particular a `PyFloat`) throws
`Base::TypeError("type must be int, dict or tuple, not " + tp_name)`. -/
def PropertyIntegerConstraint.setPyObject (p : PropertyIntegerConstraint)
    (v : IntPyInput) : Except String PropertyIntegerConstraint :=
  match v with
  | .int n =>
    let temp := match p.constStruct with
      | some c => clampCode c.lowerBound c.upperBound n
      | none => n
    .ok { p with lValue := temp }
  | .dictOrTuple value mn mx st =>
    let c : IntConstraints :=
      { lowerBound := mn, upperBound := mx, stepSize := max 1 st, deletable := true }
    .ok { lValue := clampCode c.lowerBound c.upperBound value, constStruct := some c }
  | v => .error ("type must be int, dict or tuple, not " ++ v.tpName)

/-- Model of `App::PropertyFloatConstraint::Constraints`. -/
structure FloatConstraints where
  lowerBound : ℚ
  upperBound : ℚ
  stepSize : ℚ
  deletable : Bool
deriving DecidableEq

/-- Model of `App::PropertyFloatConstraint`. -/
structure PropertyFloatConstraint where
  dValue : ℚ
  constStruct : Option FloatConstraints
deriving DecidableEq

/-- Model of `std::numeric_limits<double>::epsilon()`, i.e. `2^-52`, the threshold of
the step-size check in `PropertyFloatConstraint::setPyObject`. -/
def dblEpsilon : ℚ := 1 / 2 ^ 52

/-- Model of `PropertyFloatConstraint::setPyObject` (PropertyStandard.cpp:1178-1274).
`PyFloat` or `PyLong`: clamp into the descriptor bounds when one is installed,
else store unchanged.  Dict/tuple: parse `(value, min, max, step)`; a step
below `std::numeric_limits<double>::epsilon()` throws
`Base::ValueError("Step size must be greater than zero")`, otherwise a new
owned descriptor is installed and the clamped value stored.  Anything else
throws `Base::TypeError("type must be float, dict or tuple, not " +
tp_name)`. -/
def PropertyFloatConstraint.setPyObject (p : PropertyFloatConstraint)
    (v : FloatPyInput) : Except String PropertyFloatConstraint :=
  match v with
  | .float x =>
    let temp := match p.constStruct with
      | some c => clampCode c.lowerBound c.upperBound x
      | none => x
    .ok { p with dValue := temp }
  | .int n =>
    let temp := match p.constStruct with
      | some c => clampCode c.lowerBound c.upperBound (n : ℚ)
      | none => (n : ℚ)
    .ok { p with dValue := temp }
  | .dictOrTuple value mn mx st =>
    if st < dblEpsilon then
      .error "Step size must be greater than zero"
    else
      let c : FloatConstraints :=
        { lowerBound := mn, upperBound := mx, stepSize := st, deletable := true }
      .ok { dValue := clampCode c.lowerBound c.upperBound value, constStruct := some c }
  | v => .error ("type must be float, dict or tuple, not " ++ v.tpName)

/-! ## `Paste` and the notification bracket (PropertyInteger / PropertyString)

Every mutator signals the container with `aboutToSetValue()` before touching
the raw value and `hasSetValue()` after.  The models below return, next to the
new value, the number of `aboutToSetValue` calls and the number of
`hasSetValue` calls performed by the operation. -/

/-- A property value of one of the two concrete kinds whose `Paste` the claims
cite: `App::PropertyInteger` and `App::PropertyString`.  `Paste` downcasts its
argument with `dynamic_cast<const T&>`, which throws `std::bad_cast` on a kind
mismatch. -/
inductive PropValue where
  | int (v : ℤ)
  | str (s : String)
deriving DecidableEq

/-- Outcome of a mutating call: possible error, resulting value, number of
`aboutToSetValue` calls, number of `hasSetValue` calls. -/
structure MutResult (α : Type) where
  result : Except String Unit
  value : α
  preCalls : ℕ
  postCalls : ℕ

/-- Model of `PropertyInteger::Paste` (PropertyStandard.cpp:136-141): fires
`aboutToSetValue`, then `dynamic_cast`s the source (throwing `std::bad_cast`
on a different concrete kind, before the value is touched), assigns, and fires
`hasSetValue`. -/
def PropertyInteger.paste (dst : ℤ) (src : PropValue) : MutResult ℤ :=
  match src with
  | .int v => ⟨.ok (), v, 1, 1⟩
  | _ => ⟨.error "std::bad_cast", dst, 1, 0⟩

/-- Model of `PropertyString::setValue(const char*)` (PropertyStandard.cpp:1433-1473)
for a cell that is not the `Label` of a `DocumentObject` (so the
proposed-label-change / transaction branch is not entered): returns without
firing any hook when the new text equals the stored text, otherwise fires one
`aboutToSetValue`/`hasSetValue` bracket around the assignment. -/
def PropertyString.setValue (dst : String) (newValue : String) : MutResult String :=
  if dst = newValue then ⟨.ok (), dst, 0, 0⟩
  else ⟨.ok (), newValue, 1, 1⟩

/-- Model of `PropertyString::Paste` (PropertyStandard.cpp:1566-1569): `dynamic_cast`
the source (throwing `std::bad_cast` on a kind mismatch), then delegate to
`setValue`. -/
def PropertyString.paste (dst : String) (src : PropValue) : MutResult String :=
  match src with
  | .str s => PropertyString.setValue dst s
  | _ => ⟨.error "std::bad_cast", dst, 0, 0⟩

/-- Model of `Property::Paste` dispatched over the two modelled concrete kinds. -/
def PropValue.paste (dst src : PropValue) : MutResult PropValue :=
  match dst with
  | .int d =>
    let r := PropertyInteger.paste d src
    ⟨r.result, .int r.value, r.preCalls, r.postCalls⟩
  | .str d =>
    let r := PropertyString.paste d src
    ⟨r.result, .str r.value, r.preCalls, r.postCalls⟩

/-- The concrete kind tag compared by the `dynamic_cast` in `Paste`. -/
def PropValue.sameKind : PropValue → PropValue → Bool
  | .int _, .int _ => true
  | .str _, .str _ => true
  | _, _ => false

/-! ## `PropertyEnumeration` -/

/-- Modelled from the spec: `App::Enumeration` (its implementation is not under
`src/`; §3 of the spec describes it as `{selectedIndex: int (-1 = unset),
labels: ordered sequence of string, isCustom: bool}`, where a valid selection
satisfies `0 ≤ selectedIndex < |labels|`).  The custom flag plays no role in
the claims settled here and is omitted. -/
structure Enumeration where
  index : ℤ
  labels : List String
deriving DecidableEq

/-- Modelled from the spec: the enumeration has a valid selection iff the
index addresses a label. -/
def Enumeration.isValid (e : Enumeration) : Prop :=
  0 ≤ e.index ∧ e.index.toNat < e.labels.length

instance (e : Enumeration) : Decidable e.isValid := by
  unfold Enumeration.isValid; infer_instance

/-- Modelled from the spec: the label currently selected (the source calls
`_enum.getCStr()` only after `isValid` has been checked). -/
def Enumeration.getCStr (e : Enumeration) : String :=
  e.labels.getD e.index.toNat ""

/-- Modelled from the spec: `Enumeration::setEnums` "replaces the label set";
the selection index is left untouched by this model. -/
def Enumeration.setEnumsE (e : Enumeration) (values : List String) : Enumeration :=
  { e with labels := values }

/-- Model of `App::PropertyEnumeration`: the enumeration value plus the qualified name
reported by `Property::getFullName()` (an unattached container yields a name
starting with the sentinel `?`). -/
structure PropertyEnumeration where
  enum : Enumeration
  fullName : String
deriving DecidableEq

/-- Model of `PropertyEnumeration::setEnums(const char**)` (PropertyStandard.cpp:298-311):
when the full name starts with `?` (container not attached to a document)
neither hook is fired; otherwise the replacement is bracketed normally. -/
def PropertyEnumeration.setEnums (p : PropertyEnumeration) (plEnums : List String) :
    MutResult PropertyEnumeration :=
  let notify := !p.fullName.startsWith "?"
  ⟨.ok (), { p with enum := p.enum.setEnumsE plEnums },
    if notify then 1 else 0, if notify then 1 else 0⟩

/-- Model of `PropertyEnumeration::setEnumVector` (PropertyStandard.cpp:372-385): same
suppression logic as `setEnums`. -/
def PropertyEnumeration.setEnumVector (p : PropertyEnumeration) (values : List String) :
    MutResult PropertyEnumeration :=
  let notify := !p.fullName.startsWith "?"
  ⟨.ok (), { p with enum := p.enum.setEnumsE values },
    if notify then 1 else 0, if notify then 1 else 0⟩

/-- Model of `PropertyEnumeration::getValueAsString` (PropertyStandard.cpp:354-360):
throws `Base::RuntimeError` when the enumeration has no valid selection. -/
def PropertyEnumeration.getValueAsString (p : PropertyEnumeration) :
    Except String String :=
  if ¬p.enum.isValid then .error "Cannot get value from invalid enumeration"
  else .ok p.enum.getCStr

/-- Model of `PropertyEnumeration::getPyObject` (PropertyStandard.cpp:456-463): returns
Python `None` (modelled `Option.none`) when the selection is invalid, else the
current label as a string. -/
def PropertyEnumeration.getPyObjectE (p : PropertyEnumeration) : Option String :=
  if ¬p.enum.isValid then none
  else some p.enum.getCStr

/-! ## `App::Material` and `App::PropertyMaterialList`

Colors are carried as their packed 32-bit value (`Base::Color::getPackedValue`
/ `setPackedValue` are external to the excerpt; the material-list code only
stores and streams the packed word).  `shininess` and `transparency` are C
`float`s that the code only stores and streams, never computes with; they are
modelled by their 32-bit bit pattern. -/

/-- Model of `App::Material`, restricted to the fields `PropertyMaterialList` touches:
four packed colors, two floats (as bit patterns), three strings. -/
structure Material where
  ambientColor : ℕ
  diffuseColor : ℕ
  specularColor : ℕ
  emissiveColor : ℕ
  shininess : ℕ
  transparency : ℕ
  image : String
  imagePath : String
  uuid : String
deriving DecidableEq

/-- A default-constructed `App::Material`: the three `std::string` members are
default-constructed empty; the numeric defaults are irrelevant to every claim
settled here and are taken as zero. -/
def defaultMaterial : Material :=
  { ambientColor := 0, diffuseColor := 0, specularColor := 0, emissiveColor := 0,
    shininess := 0, transparency := 0, image := "", imagePath := "", uuid := "" }

/-- Modelled from the spec: `PropertyListsT::setSize` (declared outside the
excerpt) resizes the element vector with `std::vector::resize` semantics —
truncate when shrinking, pad with copies of `pad` when growing. -/
def resizeList (l : List Material) (n : ℕ) (pad : Material) : List Material :=
  l.take n ++ List.replicate (n - l.length) pad

/-- The stored state of `App::PropertyMaterialList` is its element vector
`_lValueList`; the class constructor establishes size ≥ 1 via
`setMinimumSizeOne`. -/
abbrev MaterialList := List Material

/-- Model of `PropertyMaterialList::setValues` (PropertyStandard.cpp:2752-2762): a
non-empty argument replaces the vector; an empty argument instead resizes the
current vector to one element (`setSize(1)`, padding with a
default-constructed `Material`). -/
def MaterialList.setValues (cur : MaterialList) (newValues : List Material) :
    MaterialList :=
  if newValues ≠ [] then newValues
  else resizeList cur 1 defaultMaterial

/-- Model of `PropertyMaterialList::setMinimumSizeOne` (PropertyStandard.cpp:2783-2789). -/
def MaterialList.setMinimumSizeOne (cur : MaterialList) : MaterialList :=
  if cur.length < 1 then resizeList cur 1 defaultMaterial else cur

/-- Model of `PropertyMaterialList::verifyIndex` (PropertyStandard.cpp:2775-2781):
throws `Base::RuntimeError("index out of bound")` unless `-1 ≤ index ≤ size`. -/
def MaterialList.verifyIndex (cur : MaterialList) (index : ℤ) : Except String Unit :=
  if index < -1 ∨ index > (cur.length : ℤ) then .error "index out of bound"
  else .ok ()

/-- Model of `PropertyMaterialList::setValue(const Material&)`
(PropertyStandard.cpp:2808-2816): resize to one element, then overwrite every
element. -/
def MaterialList.setValue (cur : MaterialList) (mat : Material) : MaterialList :=
  (resizeList cur 1 defaultMaterial).map fun _ => mat

/-- Model of `PropertyMaterialList::setDiffuseColor(const Base::Color&)`
(PropertyStandard.cpp:2888-2896), the broadcast form: ensure size ≥ 1, then
set every element's diffuse channel. -/
def MaterialList.setDiffuseColorAll (cur : MaterialList) (col : ℕ) : MaterialList :=
  cur.setMinimumSizeOne.map fun m => { m with diffuseColor := col }

/-- Model of `PropertyMaterialList::setDiffuseColor(int, const Base::Color&)`
(PropertyStandard.cpp:2918-2926), the index-qualified form: `verifyIndex`
throws before any mutation; `resizeByOneIfNeeded`
(PropertyStandard.cpp:2791-2800) turns `index == -1` or `index == size` into
an append of one default element; then the targeted element's diffuse channel
is assigned. -/
def MaterialList.setDiffuseColorAt (cur : MaterialList) (index : ℤ) (col : ℕ) :
    Except String MaterialList :=
  match cur.verifyIndex index with
  | .error e => .error e
  | .ok () =>
    let (i, l) :=
      if index = -1 ∨ index = (cur.length : ℤ) then (cur.length, cur ++ [defaultMaterial])
      else (index.toNat, cur)
    .ok (l.set i { l.getD i defaultMaterial with diffuseColor := col })

/-- Model of `PropertyMaterialList::setDiffuseColors` (PropertyStandard.cpp:2948-2957):
resize to the argument's length, padding with a copy of the current first
element, then overwrite each element's diffuse channel positionally.  (The
source reads `_lValueList[0]` as the pad, assuming the size ≥ 1 invariant;
the model pads with the head, defaulting when the vector is empty.) -/
def MaterialList.setDiffuseColors (cur : MaterialList) (colors : List ℕ) : MaterialList :=
  (resizeList cur colors.length (cur.headD defaultMaterial)).zipWith
    (fun m c => { m with diffuseColor := c }) colors

/-- Model of `PropertyMaterialList::setTransparencies` (PropertyStandard.cpp:3119-3128):
same shape as `setDiffuseColors` for the transparency channel. -/
def MaterialList.setTransparencies (cur : MaterialList) (ts : List ℕ) : MaterialList :=
  (resizeList cur ts.length (cur.headD defaultMaterial)).zipWith
    (fun m t => { m with transparency := t }) ts

/-! ## Binary blob stream for `SaveDocFile` / `RestoreDocFile`

The byte stream is modelled at the granularity the material-list code reads
and writes it: 32-bit words (`uint32_t`, `int32_t` and `float` all occupy one
word; `str >> int32_t` on a word written as `uint32_t` reinterprets it in
two's complement) and single characters (the bytes of the three strings). -/

/-- One stream item: a 32-bit word (value as an unsigned `ℕ < 2^32`) or one
string byte. -/
inductive Tok where
  | w32 (n : ℕ)
  | byte (c : Char)
deriving DecidableEq

/-- Model of `Base::InputStream& operator>>(uint32_t&)`: consume one word. -/
def readU32 : List Tok → Option (ℕ × List Tok)
  | .w32 n :: ts => some (n, ts)
  | _ => none

/-- Model of `Base::InputStream& operator>>(int32_t&)`: consume one word, two's
complement. -/
def readI32 : List Tok → Option (ℤ × List Tok)
  | .w32 n :: ts => some (if n < 2 ^ 31 then (n : ℤ) else (n : ℤ) - 2 ^ 32, ts)
  | _ => none

/-- Model of `Base::InputStream::read(buf, n)`: consume `n` string bytes. -/
def readBytes : ℕ → List Tok → Option (List Char × List Tok)
  | 0, ts => some ([], ts)
  | n + 1, .byte c :: ts =>
    match readBytes n ts with
    | some (cs, rest) => some (c :: cs, rest)
    | none => none
  | _ + 1, _ => none

/-- Model of `PropertyMaterialList::writeString` (PropertyStandard.cpp:3269-3274):
a `uint32_t` length followed by the raw bytes. -/
def writeString (s : String) : List Tok :=
  .w32 s.length :: s.data.map .byte

/-- Model of `PropertyMaterialList::readString` (PropertyStandard.cpp:3360-3368):
a `uint32_t` length followed by that many bytes. -/
def readString (ts : List Tok) : Option (String × List Tok) :=
  match readU32 ts with
  | none => none
  | some (n, ts) =>
    match readBytes n ts with
    | none => none
    | some (cs, rest) => some (⟨cs⟩, rest)

/-- The six fixed-size fields of one element, in the order `SaveDocFile`
streams them (PropertyStandard.cpp:3252-3259). -/
def writeMatFixed (m : Material) : List Tok :=
  [.w32 m.ambientColor, .w32 m.diffuseColor, .w32 m.specularColor,
   .w32 m.emissiveColor, .w32 m.shininess, .w32 m.transparency]

/-- The three strings of one element, in the order `SaveDocFile` streams them
in its second pass (PropertyStandard.cpp:3262-3266). -/
def writeMatStrings (m : Material) : List Tok :=
  writeString m.image ++ writeString m.imagePath ++ writeString m.uuid

/-- Model of `PropertyMaterialList::SaveDocFile` (PropertyStandard.cpp:3247-3267): the
element count as `uint32_t`, then the fixed-size fields of all elements, then
— in a second pass over all elements — the three strings of each element. -/
def saveDocFile (ms : MaterialList) : List Tok :=
  .w32 (ms.length % 2 ^ 32) :: (ms.flatMap writeMatFixed ++ ms.flatMap writeMatStrings)

/-- Reading the six fixed-size fields of one element into a default-constructed
`Material` (the common loop body of `RestoreDocFileV0` and
`RestoreDocFileV3`). -/
def readMatFixed (ts : List Tok) : Option (Material × List Tok) :=
  match readU32 ts with
  | none => none
  | some (a, ts) =>
  match readU32 ts with
  | none => none
  | some (d, ts) =>
  match readU32 ts with
  | none => none
  | some (s, ts) =>
  match readU32 ts with
  | none => none
  | some (e, ts) =>
  match readU32 ts with
  | none => none
  | some (sh, ts) =>
  match readU32 ts with
  | none => none
  | some (tr, ts) =>
    some ({ defaultMaterial with
            ambientColor := a, diffuseColor := d, specularColor := s,
            emissiveColor := e, shininess := sh, transparency := tr }, ts)

/-- The first restore pass: `count` fixed-size records. -/
def readMatFixedN : ℕ → List Tok → Option (List Material × List Tok)
  | 0, ts => some ([], ts)
  | n + 1, ts =>
    match readMatFixed ts with
    | none => none
    | some (m, ts) =>
      match readMatFixedN n ts with
      | none => none
      | some (ms, rest) => some (m :: ms, rest)

/-- The `RestoreDocFileV3` second pass on one element: read `image`,
`imagePath`, `uuid` (PropertyStandard.cpp:3352-3356). -/
def readMatStrings (m : Material) (ts : List Tok) : Option (Material × List Tok) :=
  match readString ts with
  | none => none
  | some (img, ts) =>
  match readString ts with
  | none => none
  | some (pth, ts) =>
  match readString ts with
  | none => none
  | some (uid, rest) =>
    some ({ m with image := img, imagePath := pth, uuid := uid }, rest)

/-- The second restore pass over the whole element vector. -/
def readMatStringsList : List Material → List Tok → Option (List Material × List Tok)
  | [], ts => some ([], ts)
  | m :: ms, ts =>
    match readMatStrings m ts with
    | none => none
    | some (m2, ts) =>
      match readMatStringsList ms ts with
      | none => none
      | some (ms2, rest) => some (m2 :: ms2, rest)

/-- Model of `PropertyMaterialList::RestoreDocFileV0` (PropertyStandard.cpp:3307-3328):
read `count` fixed-size records into default-constructed materials (the three
string fields are never touched), then `setValues`. -/
def restoreDocFileV0 (cur : MaterialList) (count : ℕ) (ts : List Tok) :
    Option (MaterialList × List Tok) :=
  match readMatFixedN count ts with
  | none => none
  | some (vals, rest) => some (cur.setValues vals, rest)

/-- Model of `PropertyMaterialList::RestoreDocFileV3` (PropertyStandard.cpp:3330-3358):
read the count, the fixed-size records of all elements, then the three strings
of each element, then `setValues`. -/
def restoreDocFileV3 (cur : MaterialList) (ts : List Tok) :
    Option (MaterialList × List Tok) :=
  match readU32 ts with
  | none => none
  | some (count, ts) =>
    match readMatFixedN count ts with
    | none => none
    | some (vals, ts) =>
      match readMatStringsList vals ts with
      | none => none
      | some (vals, rest) => some (cur.setValues vals, rest)

/-- The format version stored by `PropertyMaterialList::Restore`:
`Version_2`, `Version_3`, or anything else (including the default when the
XML element carried no `version` attribute). -/
inductive MatFormat where
  | v2
  | v3
  | unversioned
deriving DecidableEq

/-- Model of `PropertyMaterialList::RestoreDocFile` (PropertyStandard.cpp:3276-3305):
`Version_2` reads a `uint32_t` count and restores as version 0; `Version_3`
delegates to `RestoreDocFileV3`; any other version reads an `int32_t` — a
negative value marks a pre-versioning development-build file, so it is
discarded and the next `uint32_t` is read as the version-0 count, while a
non-negative value is itself cast to `uint32_t` and used as the count. -/
def restoreDocFile (fmt : MatFormat) (cur : MaterialList) (ts : List Tok) :
    Option (MaterialList × List Tok) :=
  match fmt with
  | .v2 =>
    match readU32 ts with
    | none => none
    | some (count, ts) => restoreDocFileV0 cur count ts
  | .v3 => restoreDocFileV3 cur ts
  | .unversioned =>
    match readI32 ts with
    | none => none
    | some (version, ts) =>
      if version < 0 then
        match readU32 ts with
        | none => none
        | some (count, ts) => restoreDocFileV0 cur count ts
      else
        restoreDocFileV0 cur version.toNat ts

/-- Modelled from the spec (for comparison with `restoreDocFile`): claim C6's
reading of the unversioned branch, under which a negative value found where a
count was expected is itself "reinterpreted as a version-0 element count"
(two's-complement cast back to `uint32_t`) instead of being discarded. -/
def claimRestoreUnversioned (cur : MaterialList) (ts : List Tok) :
    Option (MaterialList × List Tok) :=
  match readI32 ts with
  | none => none
  | some (version, ts) =>
    if version < 0 then
      restoreDocFileV0 cur (version + 2 ^ 32).toNat ts
    else
      restoreDocFileV0 cur version.toNat ts

/-! ## Helper lemmas -/

/-- The branch chain of the constrained setters computes the usual clamp when
the descriptor is well-formed (`lb ≤ ub`). -/
theorem clampCode_eq_clamp {α : Type} [LinearOrder α] (lb ub x : α) (h : lb ≤ ub) :
    clampCode lb ub x = max lb (min x ub) := by
  unfold clampCode
  split_ifs with h1 h2
  · rw [min_eq_right (le_of_lt h1), max_eq_right h]
  · rw [min_eq_left (not_lt.mp h1), max_eq_left (le_of_lt h2)]
  · rw [min_eq_left (not_lt.mp h1), max_eq_right (not_lt.mp h2)]

/-- Setting the position just past `l` in `l ++ [x]` replaces the appended
element. -/
theorem set_concat_length {α : Type} (l : List α) (x y : α) :
    (l ++ [x]).set l.length y = l ++ [y] := by
  induction l with
  | nil => rfl
  | cons a l ih => simp [List.set, ih]

/-- Reading the position just past `l` in `l ++ [x]` yields the appended
element. -/
theorem getD_concat_length {α : Type} (l : List α) (x d : α) :
    (l ++ [x]).getD l.length d = x := by
  induction l with
  | nil => rfl
  | cons a l ih => simp [List.getD, ih]

/-- Lemma: `List.set` writes the requested position. -/
theorem getD_set_self {α : Type} (l : List α) (i : ℕ) (a d : α) (h : i < l.length) :
    (l.set i a).getD i d = a := by
  induction l generalizing i with
  | nil => simp at h
  | cons b l ih =>
    cases i with
    | zero => rfl
    | succ j => simpa [List.set, List.getD] using ih j (by simpa using h)

/-- Lemma: `List.set` leaves every other position unchanged. -/
theorem getD_set_ne {α : Type} (l : List α) (i j : ℕ) (a d : α) (h : j ≠ i) :
    (l.set i a).getD j d = l.getD j d := by
  induction l generalizing i j with
  | nil => simp [List.set]
  | cons b l ih =>
    cases i with
    | zero =>
      cases j with
      | zero => exact absurd rfl h
      | succ k => simp [List.set, List.getD]
    | succ i2 =>
      cases j with
      | zero => simp [List.set, List.getD]
      | succ k => simpa [List.set, List.getD] using ih i2 k (fun hk => h (by omega))

/-! ## Claim theorems -/

/-- C9: both label-set replacement operations of the enumeration cell fire the
pre-change and post-change hooks the same number of times — once each when the
qualified name does not start with the `?` sentinel (attached), zero times
each when it does (unattached); one hook never fires without the other. -/
theorem C9_enum_label_replacement_hooks (p : PropertyEnumeration) (ls : List String) :
    ((p.setEnums ls).preCalls = (p.setEnums ls).postCalls ∧
      ((p.setEnums ls).preCalls = 1 ↔ p.fullName.startsWith "?" = false)) ∧
    ((p.setEnumVector ls).preCalls = (p.setEnumVector ls).postCalls ∧
      ((p.setEnumVector ls).preCalls = 1 ↔ p.fullName.startsWith "?" = false)) := by
  unfold PropertyEnumeration.setEnums PropertyEnumeration.setEnumVector
  by_cases h : p.fullName.startsWith "?" <;> simp [h]

/-- C10: an enumeration cell with an invalid selection yields the dynamic none
value from the dynamic getter while `getValueAsString` fails with a runtime
error; with a valid selection both return the currently selected label. -/
theorem C10_enum_invalid_getter (p : PropertyEnumeration) :
    (¬p.enum.isValid →
      p.getPyObjectE = none ∧
      p.getValueAsString = .error "Cannot get value from invalid enumeration") ∧
    (p.enum.isValid →
      p.getPyObjectE = some p.enum.getCStr ∧
      p.getValueAsString = .ok p.enum.getCStr) := by
  unfold PropertyEnumeration.getPyObjectE PropertyEnumeration.getValueAsString
  constructor <;> intro h <;> simp [h]

/-- Witness for C10 at two concrete cells: index `-1` over one label
(invalid), and index `0` over two labels (valid, selecting `"flat"`). -/
theorem C10_enum_invalid_getter_witness :
    (PropertyEnumeration.getPyObjectE ⟨⟨-1, ["flat"]⟩, "Doc.Obj.Mode"⟩ = none ∧
      PropertyEnumeration.getValueAsString ⟨⟨-1, ["flat"]⟩, "Doc.Obj.Mode"⟩ =
        .error "Cannot get value from invalid enumeration") ∧
    (PropertyEnumeration.getPyObjectE ⟨⟨0, ["flat", "smooth"]⟩, "Doc.Obj.Mode"⟩ =
        some "flat" ∧
      PropertyEnumeration.getValueAsString ⟨⟨0, ["flat", "smooth"]⟩, "Doc.Obj.Mode"⟩ =
        .ok "flat") :=
  ⟨(C10_enum_invalid_getter ⟨⟨-1, ["flat"]⟩, "Doc.Obj.Mode"⟩).1 (by decide),
   (C10_enum_invalid_getter ⟨⟨0, ["flat", "smooth"]⟩, "Doc.Obj.Mode"⟩).2 (by decide)⟩

/-- C4 (code bug evaluation): the bulk channel setters `setDiffuseColors` and
`setTransparencies`, applied with an empty argument to a well-formed
one-element list, return normally with an empty list, violating the
minimum-size-one invariant maintained everywhere else in the class. -/
theorem C4_empty_bulk_setter_breaks_min_size :
    MaterialList.setDiffuseColors [defaultMaterial] [] = [] ∧
    MaterialList.setTransparencies [defaultMaterial] [] = [] := by
  constructor <;> rfl

/-- C7 counterexample: pasting a string cell onto a string cell holding the
same text succeeds but fires zero notification brackets, not exactly one. -/
theorem C7_counterexample_equal_string_paste :
    PropValue.paste (.str "Body") (.str "Body") = ⟨.ok (), .str "Body", 0, 0⟩ := by
  simp [PropValue.paste, PropertyString.paste, PropertyString.setValue]

/-- C7 (amended): `Paste` from a different concrete kind fails with
`std::bad_cast` and leaves the destination value unchanged; same-kind `Paste`
copies the source value, with the integer cell firing exactly one
pre/post bracket and the string cell firing one bracket when the text changes
and none when the source text already equals the destination's. -/
theorem C7_paste_same_kind (dst src : PropValue) (a b : String) (m n : ℤ) :
    (dst.sameKind src = false →
      (dst.paste src).result = .error "std::bad_cast" ∧ (dst.paste src).value = dst) ∧
    (PropValue.paste (.int m) (.int n) = ⟨.ok (), .int n, 1, 1⟩) ∧
    (PropValue.paste (.str a) (.str b) =
      if a = b then ⟨.ok (), .str a, 0, 0⟩ else ⟨.ok (), .str b, 1, 1⟩) := by
  refine ⟨fun h => ?_, rfl, ?_⟩
  · cases dst <;> cases src <;> simp_all [PropValue.sameKind, PropValue.paste,
      PropertyInteger.paste, PropertyString.paste]
  · by_cases h : a = b <;>
      simp [PropValue.paste, PropertyString.paste, PropertyString.setValue, h]

/-- Witness for C7 at concrete cells: an integer cell pasted from a string
cell fails with `std::bad_cast` keeping its value. -/
theorem C7_paste_same_kind_witness :
    PropValue.sameKind (.int 7) (.str "x") = false ∧
    (PropValue.paste (.int 7) (.str "x")).result = .error "std::bad_cast" ∧
    (PropValue.paste (.int 7) (.str "x")).value = .int 7 :=
  ⟨rfl, ((C7_paste_same_kind (.int 7) (.str "x") "" "" 0 0).1 rfl).1,
    ((C7_paste_same_kind (.int 7) (.str "x") "" "" 0 0).1 rfl).2⟩

/-- C2 counterexample: the integer cell's dynamic-value setter does not accept
a float dynamic value at all — it rejects `0.5` with a type error instead of
storing `round(0.5) = 1`. -/
theorem C2_counterexample_int_cell_rejects_float :
    PropertyInteger.setPyObject ⟨0⟩ (.float (1 / 2)) =
      .error "type must be int, not float" := rfl

/-- C2 (amended): the float cell's dynamic setter accepts an integer (widened
to float) and the integer cell's dynamic setter rejects a float with a type
error naming the type; non-numeric values are rejected by both with a type
error naming the offending type; a float reaches the integer cell only
through the path-value setter, which rounds it half away from zero. -/
theorem C2_numeric_coercions (p : PropertyInteger) (f : PropertyFloat)
    (n : ℤ) (x : ℚ) (t : String) :
    (f.setPyObject (.int n) = .ok ⟨(n : ℚ)⟩) ∧
    (p.setPyObject (.float x) = .error "type must be int, not float") ∧
    (p.setPyObject (.other t) = .error ("type must be int, not " ++ t)) ∧
    (f.setPyObject (.other t) = .error ("type must be float or int, not " ++ t)) ∧
    (p.setPathValue (.aDouble x) = .ok ⟨boostRound x⟩) ∧
    boostRound (1 / 2) = 1 ∧ boostRound (-(1 / 2)) = -1 ∧
    boostRound (5 / 2) = 3 ∧ boostRound (-(5 / 2)) = -3 := by
  refine ⟨rfl, rfl, rfl, rfl, rfl, ?_, ?_, ?_, ?_⟩ <;>
    simp [boostRound] <;> norm_num [Int.floor_eq_iff, Int.ceil_eq_iff]

/-- C1 counterexample: with a descriptor `[0, 10]` installed, assigning the
plain numeric dynamic value `5/2` (a float) to the constrained integer cell
fails with a type error instead of storing `clamp(5/2, 0, 10)`. -/
theorem C1_counterexample_float_to_int_constraint :
    PropertyIntegerConstraint.setPyObject ⟨0, some ⟨0, 10, 1, true⟩⟩ (.float (5 / 2)) =
      .error "type must be int, dict or tuple, not float" := rfl

/-- C1 (amended): for a plain numeric dynamic value of a kind the cell's
setter accepts (an int for the constrained integer cell; an int or a float
for the constrained float cell), assignment never fails and stores
`clamp(x, lo, hi)` when a descriptor `[lo, hi]` with `lo ≤ hi` is installed,
and stores the value unchanged when no descriptor is installed. -/
theorem C1_constrained_numeric_clamp (p : PropertyIntegerConstraint)
    (q : PropertyFloatConstraint) (n : ℤ) (x : ℚ)
    (c : IntConstraints) (d : FloatConstraints) :
    (p.constStruct = some c → c.lowerBound ≤ c.upperBound →
      p.setPyObject (.int n) =
        .ok { p with lValue := max c.lowerBound (min n c.upperBound) }) ∧
    (p.constStruct = none → p.setPyObject (.int n) = .ok { p with lValue := n }) ∧
    (q.constStruct = some d → d.lowerBound ≤ d.upperBound →
      q.setPyObject (.float x) =
          .ok { q with dValue := max d.lowerBound (min x d.upperBound) } ∧
      q.setPyObject (.int n) =
          .ok { q with dValue := max d.lowerBound (min (n : ℚ) d.upperBound) }) ∧
    (q.constStruct = none →
      q.setPyObject (.float x) = .ok { q with dValue := x } ∧
      q.setPyObject (.int n) = .ok { q with dValue := (n : ℚ) }) := by
  refine ⟨fun hc hle => ?_, fun hc => ?_, fun hd hle => ⟨?_, ?_⟩, fun hd => ⟨?_, ?_⟩⟩
  · simp [PropertyIntegerConstraint.setPyObject, hc, clampCode_eq_clamp _ _ _ hle]
  · simp [PropertyIntegerConstraint.setPyObject, hc]
  · simp [PropertyFloatConstraint.setPyObject, hd, clampCode_eq_clamp _ _ _ hle]
  · simp [PropertyFloatConstraint.setPyObject, hd, clampCode_eq_clamp _ _ _ hle]
  · simp [PropertyFloatConstraint.setPyObject, hd]
  · simp [PropertyFloatConstraint.setPyObject, hd]

/-- Witness for C1 at concrete cells: descriptor `[0, 10]`, value `27` clamps
to `10` for the integer cell; descriptor `[-1, 1]`, float `-3/2` clamps to
`-1` for the float cell; with no descriptor `27` is stored unchanged. -/
theorem C1_constrained_numeric_clamp_witness :
    ((0 : ℤ) ≤ 10 ∧
      PropertyIntegerConstraint.setPyObject ⟨0, some ⟨0, 10, 1, true⟩⟩ (.int 27) =
        .ok ⟨10, some ⟨0, 10, 1, true⟩⟩) ∧
    ((-1 : ℚ) ≤ 1 ∧
      PropertyFloatConstraint.setPyObject ⟨0, some ⟨-1, 1, 1, true⟩⟩ (.float (-(3 / 2))) =
        .ok ⟨-1, some ⟨-1, 1, 1, true⟩⟩) ∧
    PropertyIntegerConstraint.setPyObject ⟨0, none⟩ (.int 27) = .ok ⟨27, none⟩ := by
  refine ⟨⟨by norm_num, ?_⟩, ⟨by norm_num, ?_⟩, ?_⟩
  · have h := (C1_constrained_numeric_clamp ⟨0, some ⟨0, 10, 1, true⟩⟩ ⟨0, none⟩
      27 0 ⟨0, 10, 1, true⟩ ⟨0, 1, 1, true⟩).1 rfl (by norm_num)
    norm_num [max_def, min_def] at h
    exact h
  · have h := ((C1_constrained_numeric_clamp ⟨0, none⟩ ⟨0, some ⟨-1, 1, 1, true⟩⟩
      0 (-(3 / 2)) ⟨0, 10, 1, true⟩ ⟨-1, 1, 1, true⟩).2.2.1 rfl (by norm_num)).1
    norm_num [max_def, min_def] at h
    exact h
  · exact (C1_constrained_numeric_clamp ⟨0, none⟩ ⟨0, none⟩ 27 0
      ⟨0, 10, 1, true⟩ ⟨0, 1, 1, true⟩).2.1 rfl

/-- C8 counterexample: the step `2^-53` is strictly greater than zero, yet the
floating constrained cell rejects the descriptor `(0, 0, 1, 2^-53)` with the
step-size validation error, because the code compares the step against
`std::numeric_limits<double>::epsilon() = 2^-52`, not against zero. -/
theorem C8_counterexample_positive_step_rejected :
    (0 : ℚ) < 1 / 2 ^ 53 ∧
    PropertyFloatConstraint.setPyObject ⟨0, none⟩ (.dictOrTuple 0 0 1 (1 / 2 ^ 53)) =
      .error "Step size must be greater than zero" := by
  constructor
  · norm_num
  · simp only [PropertyFloatConstraint.setPyObject, dblEpsilon]
    rw [if_pos (by norm_num)]

/-- C8 (amended): installing a descriptor through the constrained dynamic
setter rejects the floating variant's step with a validation error if and
only if the step is below `std::numeric_limits<double>::epsilon()` (`2^-52`);
the integer variant never rejects the step but installs `max(1, step)`, so
the installed step size is at least 1. -/
theorem C8_descriptor_step_validation (p : PropertyFloatConstraint)
    (q : PropertyIntegerConstraint) (v mn mx st : ℚ) (iv imn imx ist : ℤ) :
    (p.setPyObject (.dictOrTuple v mn mx st) =
        .error "Step size must be greater than zero" ↔ st < dblEpsilon) ∧
    (dblEpsilon ≤ st →
      p.setPyObject (.dictOrTuple v mn mx st) =
        .ok ⟨clampCode mn mx v, some ⟨mn, mx, st, true⟩⟩) ∧
    (q.setPyObject (.dictOrTuple iv imn imx ist) =
        .ok ⟨clampCode imn imx iv, some ⟨imn, imx, max 1 ist, true⟩⟩ ∧
      1 ≤ max 1 ist) := by
  refine ⟨?_, fun h => ?_, rfl, le_max_left 1 ist⟩
  · by_cases h : st < dblEpsilon <;>
      simp [PropertyFloatConstraint.setPyObject, h]
  · simp [PropertyFloatConstraint.setPyObject, not_lt.mpr h]

/-- Witness for C8 at a concrete descriptor: step `1/1000` is at least
`2^-52` and is installed unchanged. -/
theorem C8_descriptor_step_validation_witness :
    dblEpsilon ≤ (1 / 1000 : ℚ) ∧
    PropertyFloatConstraint.setPyObject ⟨0, none⟩ (.dictOrTuple 50 0 100 (1 / 1000)) =
      .ok ⟨clampCode 0 100 50, some ⟨0, 100, 1 / 1000, true⟩⟩ :=
  ⟨by norm_num [dblEpsilon],
    (C8_descriptor_step_validation ⟨0, none⟩ ⟨0, none⟩ 50 0 100 (1 / 1000) 0 0 0 0).2.1
      (by norm_num [dblEpsilon])⟩

/-- C3: the index-qualified material-list field setter (modelled on
`setDiffuseColor(int, color)`): index `-1` or `size` appends exactly one
element carrying the supplied color in its diffuse channel and leaves the
pre-existing elements unchanged; an in-range index modifies only the targeted
element's diffuse channel; any other index fails with the bounds error before
any mutation. -/
theorem C3_material_indexed_setter (cur : MaterialList) (index : ℤ) (col : ℕ) :
    ((index = -1 ∨ index = (cur.length : ℤ)) →
      cur.setDiffuseColorAt index col =
        .ok (cur ++ [{ defaultMaterial with diffuseColor := col }])) ∧
    (0 ≤ index → index < (cur.length : ℤ) →
      ∃ l, cur.setDiffuseColorAt index col = .ok l ∧
        l.length = cur.length ∧
        l.getD index.toNat defaultMaterial =
          { cur.getD index.toNat defaultMaterial with diffuseColor := col } ∧
        ∀ j : ℕ, j ≠ index.toNat →
          l.getD j defaultMaterial = cur.getD j defaultMaterial) ∧
    ((index < -1 ∨ (cur.length : ℤ) < index) →
      cur.setDiffuseColorAt index col = .error "index out of bound") := by
  refine ⟨fun h => ?_, fun h0 hlt => ?_, fun h => ?_⟩
  · have h1 : ¬(index < -1 ∨ index > (cur.length : ℤ)) := by omega
    simp only [MaterialList.setDiffuseColorAt, MaterialList.verifyIndex, if_neg h1,
      if_pos h]
    rw [getD_concat_length, set_concat_length]
  · have h1 : ¬(index < -1 ∨ index > (cur.length : ℤ)) := by omega
    have h2 : ¬(index = -1 ∨ index = (cur.length : ℤ)) := by omega
    have hi : index.toNat < cur.length := by omega
    refine ⟨cur.set index.toNat
      { cur.getD index.toNat defaultMaterial with diffuseColor := col }, ?_, ?_, ?_, ?_⟩
    · simp only [MaterialList.setDiffuseColorAt, MaterialList.verifyIndex, if_neg h1,
        if_neg h2]
    · simp
    · exact getD_set_self cur index.toNat _ _ hi
    · exact fun j hj => getD_set_ne cur index.toNat j _ _ hj
  · have h1 : index < -1 ∨ index > (cur.length : ℤ) := by omega
    simp only [MaterialList.setDiffuseColorAt, MaterialList.verifyIndex, if_pos h1]

/-- Witness for C3 on a two-element list: index `-1` appends, index `2`
(= size) appends, index `0` edits in place keeping the other element, and
index `5` is rejected. -/
theorem C3_material_indexed_setter_witness :
    (MaterialList.setDiffuseColorAt [defaultMaterial, defaultMaterial] (-1) 7 =
      .ok [defaultMaterial, defaultMaterial, { defaultMaterial with diffuseColor := 7 }]) ∧
    (MaterialList.setDiffuseColorAt [defaultMaterial, defaultMaterial] 2 7 =
      .ok [defaultMaterial, defaultMaterial, { defaultMaterial with diffuseColor := 7 }]) ∧
    (∃ l, MaterialList.setDiffuseColorAt [defaultMaterial, defaultMaterial] 0 7 = .ok l ∧
      l.length = 2 ∧
      l.getD 0 defaultMaterial = { defaultMaterial with diffuseColor := 7 } ∧
      l.getD 1 defaultMaterial = defaultMaterial) ∧
    (MaterialList.setDiffuseColorAt [defaultMaterial, defaultMaterial] 5 7 =
      .error "index out of bound") := by
  refine ⟨?_, ?_, ?_, ?_⟩
  · exact (C3_material_indexed_setter [defaultMaterial, defaultMaterial] (-1) 7).1
      (Or.inl rfl) |>.trans (by norm_num)
  · exact (C3_material_indexed_setter [defaultMaterial, defaultMaterial] 2 7).1
      (Or.inr (by norm_num)) |>.trans (by norm_num)
  · obtain ⟨l, hl, hlen, hset, hother⟩ :=
      (C3_material_indexed_setter [defaultMaterial, defaultMaterial] 0 7).2.1
        (by norm_num) (by norm_num)
    exact ⟨l, hl, by simpa using hlen, by simpa using hset, by simpa using hother 1 (by norm_num)⟩
  · exact (C3_material_indexed_setter [defaultMaterial, defaultMaterial] 5 7).2.2
      (Or.inr (by norm_num))

/-! ## Stream roundtrip lemmas -/

/-- Lemma: `readBytes` consumes exactly the bytes written for `cs`. -/
theorem readBytes_roundtrip (cs : List Char) (rest : List Tok) :
    readBytes cs.length (cs.map .byte ++ rest) = some (cs, rest) := by
  induction cs with
  | nil => rfl
  | cons c cs ih => simp [readBytes, ih]

/-- Lemma: `readString` inverts `writeString`. -/
theorem readString_roundtrip (s : String) (rest : List Tok) :
    readString (writeString s ++ rest) = some (s, rest) := by
  cases s with
  | mk data =>
    show readString (.w32 (String.mk data).length :: (data.map .byte ++ rest)) = _
    simp [readString, readU32, String.length, readBytes_roundtrip]

/-- Lemma: `readMatFixed` inverts `writeMatFixed`, producing the element with its
string fields still default. -/
theorem readMatFixed_roundtrip (m : Material) (rest : List Tok) :
    readMatFixed (writeMatFixed m ++ rest) =
      some ({ m with image := "", imagePath := "", uuid := "" }, rest) := by
  simp [writeMatFixed, readMatFixed, readU32, defaultMaterial]

/-- The first restore pass inverts the first save pass. -/
theorem readMatFixedN_roundtrip (ms : List Material) (rest : List Tok) :
    readMatFixedN ms.length (ms.flatMap writeMatFixed ++ rest) =
      some (ms.map (fun m => { m with image := "", imagePath := "", uuid := "" }), rest) := by
  induction ms with
  | nil => rfl
  | cons m ms ih =>
    show readMatFixedN (ms.length + 1) ((writeMatFixed m ++ ms.flatMap writeMatFixed) ++ rest) = _
    rw [List.append_assoc]
    simp [readMatFixedN, readMatFixed_roundtrip, ih]

/-- Lemma: `readMatStrings` applied to the string-stripped element restores the
element exactly. -/
theorem readMatStrings_roundtrip (m : Material) (rest : List Tok) :
    readMatStrings { m with image := "", imagePath := "", uuid := "" }
      (writeMatStrings m ++ rest) = some (m, rest) := by
  simp only [writeMatStrings]
  rw [List.append_assoc, List.append_assoc]
  simp [readMatStrings, readString_roundtrip]

/-- The second restore pass inverts the second save pass. -/
theorem readMatStringsList_roundtrip (ms : List Material) (rest : List Tok) :
    readMatStringsList (ms.map (fun m => { m with image := "", imagePath := "", uuid := "" }))
      (ms.flatMap writeMatStrings ++ rest) = some (ms, rest) := by
  induction ms with
  | nil => rfl
  | cons m ms ih =>
    show readMatStringsList _ ((writeMatStrings m ++ ms.flatMap writeMatStrings) ++ rest) = _
    rw [List.append_assoc]
    simp [readMatStringsList, readMatStrings_roundtrip, ih]

/-- Every element produced by the first restore pass still carries the
default (empty) string fields. -/
theorem readMatFixed_strings_empty (ts : List Tok) (m : Material) (rest : List Tok)
    (h : readMatFixed ts = some (m, rest)) :
    m.image = "" ∧ m.imagePath = "" ∧ m.uuid = "" := by
  unfold readMatFixed at h
  repeat' split at h
  all_goals try exact Option.noConfusion h
  injection h with h1
  cases h1
  simp [defaultMaterial]

/-- Every element produced by `readMatFixedN` carries empty string fields. -/
theorem readMatFixedN_strings_empty (n : ℕ) (ts : List Tok) (vals : List Material)
    (rest : List Tok) (h : readMatFixedN n ts = some (vals, rest)) :
    ∀ m ∈ vals, m.image = "" ∧ m.imagePath = "" ∧ m.uuid = "" := by
  induction n generalizing ts vals rest with
  | zero =>
    unfold readMatFixedN at h
    obtain ⟨rfl, _⟩ : vals = [] ∧ rest = ts := by
      cases h; exact ⟨rfl, rfl⟩
    intro m hm; cases hm
  | succ k ih =>
    unfold readMatFixedN at h
    split at h
    · cases h
    case _ heq1 =>
      split at h
      · cases h
      case _ heq2 =>
        cases h
        intro m hm
        rcases List.mem_cons.mp hm with rfl | hm2
        · exact readMatFixed_strings_empty _ _ _ heq1
        · exact ih _ _ _ heq2 m hm2

/-- Lemma: `readMatFixedN` returns exactly `n` elements. -/
theorem readMatFixedN_length (n : ℕ) (ts : List Tok) (vals : List Material)
    (rest : List Tok) (h : readMatFixedN n ts = some (vals, rest)) :
    vals.length = n := by
  induction n generalizing ts vals rest with
  | zero =>
    unfold readMatFixedN at h
    cases h; rfl
  | succ k ih =>
    unfold readMatFixedN at h
    split at h
    · cases h
    case _ heq1 =>
      split at h
      · cases h
      case _ heq2 =>
        cases h
        simpa using ih _ _ _ heq2

/-- A positive-count first pass fails as soon as a record read fails. -/
theorem readMatFixedN_ne_zero_none (n : ℕ) (hn : n ≠ 0) (ts : List Tok)
    (h : readMatFixed ts = none) : readMatFixedN n ts = none := by
  cases n with
  | zero => exact absurd rfl hn
  | succ k => simp [readMatFixedN, h]

/-- C5: serializing a material list with the version-3 binary writer and
deserializing it with the version-3 binary reader reproduces every element
exactly — in particular its `image`, `imagePath` and `uuid` strings, empty or
not — and deserializing a legacy version-0/2 buffer (which carries no
strings) leaves the three string fields of every restored element at their
default empty value. -/
theorem C5_material_binary_roundtrip :
    (∀ (cur ms : MaterialList), ms ≠ [] → ms.length < 2 ^ 32 →
      restoreDocFile .v3 cur (saveDocFile ms) = some (ms, [])) ∧
    (∀ (cur : MaterialList) (count : ℕ) (ts : List Tok) (res : MaterialList)
        (rest : List Tok), 0 < count →
      restoreDocFileV0 cur count ts = some (res, rest) →
      ∀ m ∈ res, m.image = "" ∧ m.imagePath = "" ∧ m.uuid = "") := by
  constructor
  · intro cur ms hne hlen
    show restoreDocFileV3 cur (saveDocFile ms) = some (ms, [])
    have h2 := readMatStringsList_roundtrip ms []
    rw [List.append_nil] at h2
    have h1 := readMatFixedN_roundtrip ms (ms.flatMap writeMatStrings)
    unfold restoreDocFileV3 saveDocFile
    simp only [readU32, Nat.mod_eq_of_lt hlen, h1, h2]
    simp [MaterialList.setValues, hne]
  · intro cur count ts res rest hpos h
    unfold restoreDocFileV0 at h
    split at h
    · exact Option.noConfusion h
    case _ vals rest2 heq =>
      injection h with h1
      cases h1
      have hlen := readMatFixedN_length _ _ _ _ heq
      have hvals : vals ≠ [] := by
        intro hv
        rw [hv] at hlen
        simp at hlen
        omega
      have hstr := readMatFixedN_strings_empty _ _ _ _ heq
      simpa [MaterialList.setValues, hvals] using hstr

/-- Witness for C5: a one-element list with a non-empty `image`, empty
`imagePath` and non-empty `uuid` round-trips through the version-3 format;
a one-record version-0 buffer restores with all three strings empty. -/
theorem C5_material_binary_roundtrip_witness :
    ([{ defaultMaterial with diffuseColor := 2, image := "tex.png", uuid := "uuid-1" }]
        ≠ ([] : MaterialList) ∧
      (1 : ℕ) < 2 ^ 32 ∧
      restoreDocFile .v3 []
        (saveDocFile
          [{ defaultMaterial with diffuseColor := 2, image := "tex.png", uuid := "uuid-1" }]) =
        some ([{ defaultMaterial with diffuseColor := 2, image := "tex.png", uuid := "uuid-1" }],
          [])) ∧
    ((0 : ℕ) < 1 ∧
      ∀ m ∈ [defaultMaterial], m.image = "" ∧ m.imagePath = "" ∧ m.uuid = "") :=
  ⟨⟨by decide, by norm_num,
    C5_material_binary_roundtrip.1 [] _ (by decide) (by norm_num)⟩,
   ⟨by decide,
    C5_material_binary_roundtrip.2 [] 1 (writeMatFixed defaultMaterial)
      [defaultMaterial] [] (by decide) (by decide)⟩⟩

/-- C6 counterexample: on the stream `[0xFFFFFFFF, 0]` (a negative `int32`
where a count was expected, followed by a zero word) the unversioned restore
discards the negative word and reads the next word `0` as the version-0
count, succeeding with the minimum-size list; the claim's reading — the
negative value itself reinterpreted as the element count, `4294967295` —
instead fails to read any record from the exhausted stream. -/
theorem C6_counterexample_negative_not_count :
    restoreDocFile .unversioned [defaultMaterial] [.w32 (2 ^ 32 - 1), .w32 0] =
      some ([defaultMaterial], []) ∧
    claimRestoreUnversioned [defaultMaterial] [.w32 (2 ^ 32 - 1), .w32 0] = none := by
  have hr : readI32 [Tok.w32 (2 ^ 32 - 1), Tok.w32 0] = some (-1, [Tok.w32 0]) := by
    simp only [readI32]
    rw [if_neg (by norm_num)]
    norm_num
  constructor
  · simp only [restoreDocFile, hr]
    rw [if_pos (by norm_num)]
    simp only [readU32]
    rfl
  · simp only [claimRestoreUnversioned, hr]
    rw [if_pos (by norm_num)]
    have hc : ((-1 : ℤ) + 2 ^ 32).toNat = 4294967295 := by decide
    rw [hc]
    unfold restoreDocFileV0
    rw [readMatFixedN_ne_zero_none _ (by norm_num) _ (by decide)]

/-- C6 (amended): when the material-list binary restore runs without a known
format version and the first 32-bit word reads negative as an `int32`, the
stream is treated as a pre-versioning development-build file: that word is
discarded and the following word is read as the version-0 element count; a
word that reads non-negative is itself used directly as the version-0
element count. -/
theorem C6_unversioned_negative_version (cur : MaterialList) (v c : ℕ)
    (ts : List Tok) :
    (2 ^ 31 ≤ v → v < 2 ^ 32 →
      restoreDocFile .unversioned cur (.w32 v :: .w32 c :: ts) =
        restoreDocFileV0 cur c ts) ∧
    (v < 2 ^ 31 →
      restoreDocFile .unversioned cur (.w32 v :: ts) =
        restoreDocFileV0 cur v ts) := by
  constructor
  · intro h1 h2
    have hv : ¬(v < 2 ^ 31) := by omega
    have hneg : ((v : ℤ) - 2 ^ 32) < 0 := by
      have h3 : (v : ℤ) < 2 ^ 32 := by exact_mod_cast h2
      omega
    have hr : readI32 (Tok.w32 v :: Tok.w32 c :: ts) =
        some ((v : ℤ) - 2 ^ 32, Tok.w32 c :: ts) := by
      simp only [readI32]
      rw [if_neg hv]
    simp only [restoreDocFile, hr]
    rw [if_pos hneg]
    simp only [readU32]
  · intro h1
    have hge : ¬((v : ℤ) < 0) := by omega
    have hr : readI32 (Tok.w32 v :: ts) = some ((v : ℤ), ts) := by
      simp only [readI32]
      rw [if_pos h1]
    simp only [restoreDocFile, hr]
    rw [if_neg hge]
    simp

/-- Witness for C6 at the smallest negative word `2^31` (reads as `-2^31`)
followed by count `1`, and at the plain non-negative count `5`. -/
theorem C6_unversioned_negative_version_witness :
    (2 ^ 31 ≤ 2 ^ 31 ∧ (2 ^ 31 : ℕ) < 2 ^ 32 ∧
      restoreDocFile .unversioned [] [.w32 (2 ^ 31), .w32 1] =
        restoreDocFileV0 [] 1 []) ∧
    ((5 : ℕ) < 2 ^ 31 ∧
      restoreDocFile .unversioned [] [.w32 5] = restoreDocFileV0 [] 5 []) :=
  ⟨⟨le_refl _, by norm_num,
    (C6_unversioned_negative_version [] (2 ^ 31) 1 []).1 (le_refl _) (by norm_num)⟩,
   ⟨by norm_num, (C6_unversioned_negative_version [] 5 0 []).2 (by norm_num)⟩⟩

end FreeCADProps
